import Mathlib

/-!
# Verification of the tracing client (chapter/9/tracing/client/main.go)

Shallow embedding of the tracing client's correlation utility and of its
request loop, together with proofs of the specified properties.

Strings are modelled as Lean `String`s; all inputs of interest are ASCII,
so Go's byte-indexed slicing (`id[16:]`, `len(id)`) coincides with
character-indexed `String.drop` / `String.length`.  Machine integers are
modelled as `Nat` with the explicit bound `2 ^ 64` where Go's `uint64`
range matters.  The effectful request loop is modelled as a function from
a finite list of per-iteration request outcomes to the list of observable
actions it performs, plus how the run ends.
-/

namespace GoClient

/-- Value of one hexadecimal digit character, as accepted by Go's
`strconv.ParseUint` with base 16: `0`-`9`, `a`-`f`, `A`-`F`. -/
def hexDigitVal (c : Char) : Option Nat :=
  if '0' ≤ c ∧ c ≤ '9' then some (c.toNat - '0'.toNat)
  else if 'a' ≤ c ∧ c ≤ 'f' then some (c.toNat - 'a'.toNat + 10)
  else if 'A' ≤ c ∧ c ≤ 'F' then some (c.toNat - 'A'.toNat + 10)
  else none

/-- Horner accumulation of hex digits; `none` on the first non-hex
character, matching Go's `strconv.ParseUint` digit loop (base 16). -/
def parseHexCore : List Char → Nat → Option Nat
  | [], acc => some acc
  | c :: cs, acc =>
    match hexDigitVal c with
    | none => none
    | some d => parseHexCore cs (acc * 16 + d)

/-- Go's `strconv.ParseUint(s, 16, 64)`: fails on the empty string, on any
non-hex character, and when the value does not fit in 64 bits (Go reports
`ErrRange` as soon as the running value would overflow; over unbounded
`Nat` that is equivalent to the final value being `≥ 2 ^ 64`, since the
running value only grows). -/
def parseUintHex64 (s : String) : Option Nat :=
  if s.isEmpty then none
  else
    match parseHexCore s.data 0 with
    | none => none
    | some n => if n < 2 ^ 64 then some n else none

/-- Go's `strconv.FormatUint(n, 10)`: the base-10 numeral of `n`. -/
def formatUint10 (n : Nat) : String := Nat.repr n

/-- `convertTraceID` from `main.go`: below 16 characters return `""`;
above 16 characters slice `id[16:]` (note: the characters AFTER the first
16, which is the last 16 only when the length is exactly 32); parse the
result as a base-16 `uint64`, returning `""` on any parse error, and
otherwise render the value in base 10. -/
def convertTraceID (id : String) : String :=
  if id.length < 16 then ""
  else
    match parseUintHex64 (if id.length > 16 then id.drop 16 else id) with
    | none => ""
    | some intValue => formatUint10 intValue

/-- The last 16 characters of a string, the substring that the spec (and
the code's own comment) say `convertTraceID` parses. -/
def last16 (id : String) : String := id.drop (id.length - 16)

/-- A single call of `convertTraceID` with an explicit ambient world state
`w`: the Go function reads and writes no non-local state, so the call
returns its result and leaves the world unchanged. -/
def convertTraceIDCall (W : Type) (id : String) (w : W) : String × W :=
  (convertTraceID id, w)

/-! ## Request-loop model

`continuouslySendRequests` is an unbounded loop; one run is modelled over
a finite list of per-iteration request outcomes (a prefix of the infinite
execution).  Each iteration emits observable `Action`s; a run ends either
because the supplied outcome list ran out (`ranOut`: the loop is still
going), by a Go `panic` (`client.Do` failure — deferred calls run), or by
`log.Fatalf`/`os.Exit` (`fatalled` — deferred calls do NOT run). -/

/-- How the outbound request of one iteration goes: it succeeds, or
`client.Do` returns a transport error, or `http.NewRequestWithContext`
fails (e.g. an invalid `DEMO_SERVER_ENDPOINT` URL). -/
inductive ReqOutcome
  | success
  | transportError
  | buildError
deriving DecidableEq

/-- Observable actions of the client. -/
inductive Action
  | startSpan (name : String)
  | httpRequest
  | addEvent (name : String) (attrs : List (String × String))
  | endSpan
  | sleep
  | shutdownExporter
deriving DecidableEq

/-- How a run ends: the finite outcome list ran out (loop still running),
a panic unwound `main` (deferred calls run), or `log.Fatalf` terminated
the process directly (deferred calls skipped). -/
inductive Termination
  | ranOut
  | panicked
  | fatalled
deriving DecidableEq

/-- `handleErr` from `main.go`: on an error, `log.Fatalf` terminates the
process (via `os.Exit(1)`, which does not run deferred calls). -/
def handleErr (errOccurred : Bool) : Option Termination :=
  if errOccurred then some Termination.fatalled else none

/-- `makeRequest` from `main.go`: build the request (`handleErr` on
failure), then `client.Do` (a transport error is a `panic(err)`), then
`res.Body.Close()` on success. -/
def makeRequest : ReqOutcome → List Action × Option Termination
  | ReqOutcome.buildError => ([], handleErr true)
  | ReqOutcome.transportError => ([Action.httpRequest], some Termination.panicked)
  | ReqOutcome.success => ([Action.httpRequest], none)

/-- `SuccessfullyFinishedRequestEvent` from `main.go`: appends the
attribute `someKey = someValue` to the caller-supplied event options and
adds the completion event to the span. -/
def SuccessfullyFinishedRequestEvent (opts : List (String × String)) : Action :=
  Action.addEvent "successfully finished request operation"
    (opts ++ [("someKey", "someValue")])

/-- One iteration of the `for` loop in `continuouslySendRequests`:
`tracer.Start` (the span "ExecuteRequest"), `makeRequest`, and — only
when `makeRequest` returns — the completion event, `span.End()`, and the
one-second sleep.  A panic or fatal exit inside `makeRequest` skips the
rest of the iteration. -/
def loopIteration (o : ReqOutcome) : List Action × Option Termination :=
  match makeRequest o with
  | (reqActs, some t) => (Action.startSpan "ExecuteRequest" :: reqActs, some t)
  | (reqActs, none) =>
    (Action.startSpan "ExecuteRequest" :: reqActs
      ++ [SuccessfullyFinishedRequestEvent [], Action.endSpan, Action.sleep], none)

/-- `continuouslySendRequests` from `main.go`, run on a finite prefix of
per-iteration outcomes: iterations run in order until one panics or
fatally exits, which abandons the rest of the list. -/
def continuouslySendRequests : List ReqOutcome → List Action × Termination
  | [] => ([], Termination.ranOut)
  | o :: rest =>
    match loopIteration o with
    | (acts, some t) => (acts, t)
    | (acts, none) =>
      (acts ++ (continuouslySendRequests rest).1, (continuouslySendRequests rest).2)

/-- `main` from `main.go`: `defer shutdown()` then the request loop.  Go
runs the deferred exporter shutdown when `main` returns or panics, but
NOT on `log.Fatalf`/`os.Exit`; while the loop is still running (`ranOut`
prefix) the deferred call has not happened yet. -/
def main (outcomes : List ReqOutcome) : List Action × Termination :=
  match continuouslySendRequests outcomes with
  | (acts, Termination.panicked) => (acts ++ [Action.shutdownExporter], Termination.panicked)
  | r => r

/-- Count of `startSpan` actions with the given span name. -/
def countStart (name : String) (acts : List Action) : Nat :=
  acts.countP fun a => match a with | Action.startSpan n => n == name | _ => false

/-- Count of `endSpan` actions. -/
def countEnd (acts : List Action) : Nat :=
  acts.countP fun a => match a with | Action.endSpan => true | _ => false

/-- The attribute lists of the recorded events, in order. -/
def events (acts : List Action) : List (List (String × String)) :=
  acts.filterMap fun a => match a with | Action.addEvent _ attrs => some attrs | _ => none

/-- Count of exporter-shutdown actions. -/
def countShutdown (acts : List Action) : Nat :=
  acts.countP fun a => match a with | Action.shutdownExporter => true | _ => false

end GoClient

namespace GoClient

/-! ## Helper lemmas -/

/-- A successful `parseUintHex64` result fits in 64 bits. -/
theorem parseUintHex64_lt_of_some (s : String) (n : Nat)
    (h : parseUintHex64 s = some n) : n < 2 ^ 64 := by
  unfold parseUintHex64 at h
  split at h
  · exact absurd h (by simp)
  · rcases hc : parseHexCore s.data 0 with _ | m
    · rw [hc] at h
      simp at h
    · rw [hc] at h
      simp only at h
      split at h
      · cases h
        assumption
      · exact absurd h (by simp)

/-- The loop itself never performs the exporter shutdown action. -/
theorem countShutdown_loop (outs : List ReqOutcome) :
    countShutdown (continuouslySendRequests outs).1 = 0 := by
  induction outs with
  | nil => decide
  | cons o rest ih =>
    cases o with
    | success =>
      simp [continuouslySendRequests, loopIteration, makeRequest,
        SuccessfullyFinishedRequestEvent, countShutdown, List.countP_append,
        List.countP_cons]
      simpa [countShutdown] using ih
    | transportError =>
      simp [continuouslySendRequests, loopIteration, makeRequest, countShutdown,
        List.countP_cons]
    | buildError =>
      simp [continuouslySendRequests, loopIteration, makeRequest, handleErr,
        countShutdown, List.countP_cons]

/-! ## Claim theorems -/

/-- Claim C1, evidence of a code bug: the code's own comment (and the
spec) say the last 16 hexadecimal characters are parsed, but the code
slices `id[16:]` — the characters AFTER the first 16.  On the all-hex
input of seventeen `1`s (length 17 ≥ 16) the code parses the single last
character and returns `"1"`, while the last 16 characters denote the
unsigned 64-bit value 1229782938247303441, so the result is not the
decimal string of the last 16 hex characters as the claim states. -/
theorem convertTraceID_not_last16_bug :
    convertTraceID "11111111111111111" = "1" ∧
    parseUintHex64 (last16 "11111111111111111") = some 1229782938247303441 ∧
    convertTraceID "11111111111111111" ≠ formatUint10 1229782938247303441 :=
  ⟨by decide, by decide, by decide⟩

/-- Claim C2, counterexample: on `"0000000000000000000000000000002a"` the
code returns `"42"` (the last 16 characters are `000000000000002a`, value
42), not `"0"` as the claim's example states. -/
theorem convertTraceID_2a_ne_zero :
    convertTraceID "0000000000000000000000000000002a" ≠ "0" := by decide

/-- Claim C2 as amended: `convertTraceID` on
`"0000000000000000000000000000002a"` returns `"42"`. -/
theorem convertTraceID_2a_eq_42 :
    convertTraceID "0000000000000000000000000000002a" = "42" := by decide

/-- Claim C3, counterexample: on `"00000000000000000000000000000ff1"` the
code returns `"4081"` (the last 16 characters are `0000000000000ff1`,
value 0xff1 = 4081), not `"255"` as the claim's example states. -/
theorem convertTraceID_ff1_ne_255 :
    convertTraceID "00000000000000000000000000000ff1" ≠ "255" := by decide

/-- Claim C3 as amended: `convertTraceID` on
`"00000000000000000000000000000ff1"` returns `"4081"`. -/
theorem convertTraceID_ff1_eq_4081 :
    convertTraceID "00000000000000000000000000000ff1" = "4081" := by decide

/-- Claim C4: in every loop iteration exactly one span named
`"ExecuteRequest"` is started (it is the iteration's first action); a
span is ended exactly once, and the completion event is recorded exactly
once with the attribute list `[("someKey", "someValue")]`, when and only
when the request succeeds; every recorded event carries at least one
key/value attribute. -/
theorem loopIteration_span_event_discipline (o : ReqOutcome) :
    countStart "ExecuteRequest" (loopIteration o).1 = 1 ∧
    (loopIteration o).1.head? = some (Action.startSpan "ExecuteRequest") ∧
    countEnd (loopIteration o).1 = (if o = ReqOutcome.success then 1 else 0) ∧
    events (loopIteration o).1 =
      (if o = ReqOutcome.success then [[("someKey", "someValue")]] else []) ∧
    ((events (loopIteration o).1).all fun attrs => !attrs.isEmpty) = true := by
  cases o <;> exact ⟨by decide, by decide, by decide, by decide, by decide⟩

/-- Claim C5: a transport error ends the run — the loop's behaviour on
`pre ++ transportError :: post` is identical whatever follows the failing
iteration (no later iteration ever runs), and when all earlier iterations
succeeded the run terminates by panic (a non-zero, abrupt process
outcome). -/
theorem transportError_halts_loop (pre post : List ReqOutcome) :
    continuouslySendRequests (pre ++ ReqOutcome.transportError :: post)
      = continuouslySendRequests (pre ++ [ReqOutcome.transportError]) ∧
    ((∀ o ∈ pre, o = ReqOutcome.success) →
      (continuouslySendRequests (pre ++ ReqOutcome.transportError :: post)).2
        = Termination.panicked) := by
  induction pre with
  | nil =>
    exact ⟨by simp [continuouslySendRequests, loopIteration, makeRequest],
      fun _ => by simp [continuouslySendRequests, loopIteration, makeRequest]⟩
  | cons o rest ih =>
    cases o with
    | success =>
      refine ⟨?_, fun h => ?_⟩
      · simp [continuouslySendRequests, loopIteration, makeRequest,
          SuccessfullyFinishedRequestEvent, ih.1]
      · simp only [List.cons_append, continuouslySendRequests, loopIteration,
          makeRequest, SuccessfullyFinishedRequestEvent]
        exact ih.2 fun o ho => h o (List.mem_cons_of_mem _ ho)
    | transportError =>
      refine ⟨?_, fun h => ?_⟩
      · simp [continuouslySendRequests, loopIteration, makeRequest]
      · exact absurd (h ReqOutcome.transportError (List.mem_cons_self _ _)) (by decide)
    | buildError =>
      refine ⟨?_, fun h => ?_⟩
      · simp [continuouslySendRequests, loopIteration, makeRequest, handleErr]
      · exact absurd (h ReqOutcome.buildError (List.mem_cons_self _ _)) (by decide)

/-- Witness for C5 at a concrete run: one successful iteration, then a
transport error, then one more (never-executed) outcome. -/
theorem transportError_halts_loop_witness :
    continuouslySendRequests
        ([ReqOutcome.success] ++ ReqOutcome.transportError :: [ReqOutcome.success])
      = continuouslySendRequests ([ReqOutcome.success] ++ [ReqOutcome.transportError]) ∧
    (continuouslySendRequests
        ([ReqOutcome.success] ++ ReqOutcome.transportError :: [ReqOutcome.success])).2
      = Termination.panicked :=
  ⟨(transportError_halts_loop [ReqOutcome.success] [ReqOutcome.success]).1,
   (transportError_halts_loop [ReqOutcome.success] [ReqOutcome.success]).2 (by decide)⟩

/-- Claim C6, counterexample: a run whose first request fails at
construction time takes the `handleErr` → `log.Fatalf` path, so the
process exits the main routine by `os.Exit` and the deferred exporter
shutdown is NOT invoked — refuting "invoked exactly once on every path by
which the process exits the main routine". -/
theorem shutdown_skipped_on_fatal_exit :
    (main [ReqOutcome.buildError]).2 = Termination.fatalled ∧
    countShutdown (main [ReqOutcome.buildError]).1 = 0 :=
  ⟨by decide, by decide⟩

/-- Claim C6 as amended: after successful initialization the deferred
exporter shutdown runs exactly once on every panic exit of the main
routine, but zero times on a `log.Fatalf` (`os.Exit`) exit. -/
theorem shutdown_once_on_panic_exit (outs : List ReqOutcome) :
    ((main outs).2 = Termination.panicked → countShutdown (main outs).1 = 1) ∧
    ((main outs).2 = Termination.fatalled → countShutdown (main outs).1 = 0) := by
  have h0 : countShutdown (continuouslySendRequests outs).1 = 0 := countShutdown_loop outs
  unfold main
  rcases h : continuouslySendRequests outs with ⟨acts, t⟩
  rw [h] at h0
  cases t <;>
    exact ⟨fun ht => by simp_all [countShutdown, List.countP_append, List.countP_cons],
      fun ht => by simp_all [countShutdown]⟩

/-- Witness for C6's amended claim on concrete runs: a panic exit invokes
the shutdown once, a fatal exit invokes it zero times. -/
theorem shutdown_once_on_panic_exit_witness :
    countShutdown (main [ReqOutcome.transportError]).1 = 1 ∧
    countShutdown (main [ReqOutcome.buildError]).1 = 0 :=
  ⟨(shutdown_once_on_panic_exit [ReqOutcome.transportError]).1 (by decide),
   (shutdown_once_on_panic_exit [ReqOutcome.buildError]).2 (by decide)⟩

/-- Claim C7: every input shorter than 16 characters yields the empty
string. -/
theorem convertTraceID_short_empty (id : String) (h : id.length < 16) :
    convertTraceID id = "" := by
  simp [convertTraceID, h]

/-- Witness for C7 at the concrete input `"abc"`. -/
theorem convertTraceID_short_empty_witness :
    ("abc" : String).length < 16 ∧ convertTraceID "abc" = "" :=
  ⟨by decide, convertTraceID_short_empty "abc" (by decide)⟩

/-- Claim C8, evidence of a code bug: on the length-17 input
`"0g000000000000000"` the last 16 characters are `g000000000000000`,
which contain the non-hex character `g`, so per the claim (and the code's
own comment) the result should be `""`; but the code parses only
`id[16:]` = `"0"` and returns `"0"` — the non-hex character in the last
16 is never even examined. -/
theorem convertTraceID_nonhex_last16_bug :
    last16 "0g000000000000000" = "g000000000000000" ∧
    hexDigitVal 'g' = none ∧
    convertTraceID "0g000000000000000" = "0" ∧
    convertTraceID "0g000000000000000" ≠ "" :=
  ⟨by decide, by decide, by decide, by decide⟩

/-- Claim C9: `convertTraceID` is deterministic and side-effect-free —
two calls on equal inputs, in arbitrary ambient world states, return
equal outputs, and a call leaves the world state unchanged. -/
theorem convertTraceID_pure (W : Type) (w₁ w₂ : W) (id₁ id₂ : String)
    (h : id₁ = id₂) :
    (convertTraceIDCall W id₁ w₁).1 = (convertTraceIDCall W id₂ w₂).1 ∧
    (convertTraceIDCall W id₁ w₁).2 = w₁ := by
  subst h
  exact ⟨rfl, rfl⟩

/-- Witness for C9 at a concrete input and world states. -/
theorem convertTraceID_pure_witness :
    (convertTraceIDCall Nat "1234567890abcdef" 0).1
      = (convertTraceIDCall Nat "1234567890abcdef" 7).1 ∧
    (convertTraceIDCall Nat "1234567890abcdef" 0).2 = 0 :=
  convertTraceID_pure Nat 0 7 "1234567890abcdef" "1234567890abcdef" rfl

/-- Claim C10: `convertTraceID` is total — on every input string it
returns either the empty string or the base-10 rendering of some value
below `2 ^ 64`; no input makes it panic or propagate an error. -/
theorem convertTraceID_total (id : String) :
    convertTraceID id = "" ∨
      ∃ n, n < 2 ^ 64 ∧ convertTraceID id = formatUint10 n := by
  unfold convertTraceID
  split
  · exact Or.inl rfl
  · rcases hp : parseUintHex64 (if id.length > 16 then id.drop 16 else id) with _ | n
    · exact Or.inl rfl
    · exact Or.inr ⟨n, parseUintHex64_lt_of_some _ _ hp, rfl⟩

end GoClient
